import Mathlib

/-!
Verification of the Joint entity loader (`src/Joint.cc`) of the sdformat
kinematic-description library, against its natural-language specification.

The Joint loader itself (`Joint::Load` and the post-load accessors and
setters) is transcribed directly from `src/Joint.cc`.  The collaborators it
calls — the Frame Graph, the pose resolver `poseInFrame`, and the small
helpers `loadName` / `loadPose` — are repository code that is not part of the
sources under verification; their behaviour is modelled from the
specification (each such definition carries a doc comment starting with
"Modelled from the spec:").

Poses and 4x4 homogeneous transforms are modelled symbolically: the claims
under verification are structural (which vertices and edges exist, which
fields change, which diagnostics are produced), and none depends on numeric
matrix arithmetic, so transform composition is tracked as a syntax tree and
pose coordinates are exact values.
-/

namespace Sdf

/-- Diagnostic codes used by the Joint loader (from `sdf/Error.hh` as used in
`Joint.cc`). -/
inductive ErrorCode where
  | ELEMENT_INCORRECT_TYPE
  | ATTRIBUTE_MISSING
  | ELEMENT_MISSING
  | ATTRIBUTE_INVALID
  | FUNCTION_ARGUMENT_MISSING
deriving DecidableEq, Repr

/-- One diagnostic: a code plus a human-readable message (`sdf::Error`). -/
structure Error where
  code : ErrorCode
  message : String
deriving DecidableEq, Repr

/-- The fixed joint-type enumeration plus the `INVALID` sentinel
(`sdf::JointType`). -/
inductive JointType where
  | INVALID
  | BALL
  | CONTINUOUS
  | FIXED
  | GEARBOX
  | PRISMATIC
  | REVOLUTE
  | REVOLUTE2
  | SCREW
  | UNIVERSAL
deriving DecidableEq, Repr

/-- A rigid pose (translation plus rotation quaternion), `ignition::math::Pose3d`.
Coordinates are modelled over exact values; no verified claim depends on the
numeric representation. -/
structure Pose3d where
  x : Int
  y : Int
  z : Int
  qw : Int
  qx : Int
  qy : Int
  qz : Int
deriving DecidableEq, Repr

/-- Constant `Pose3d::Zero`. -/
def Pose3d.Zero : Pose3d := ⟨0, 0, 0, 1, 0, 0, 0⟩

/-- A 4x4 homogeneous transform (`ignition::math::Matrix4d`), modelled
symbolically: `identity` is `Matrix4d::Identity`, `ofPose p` is the
constructor `Matrix4d(pose)`, and `mul` / `inv` track the compositions the
pose resolver performs. -/
inductive Matrix4d where
  | identity
  | ofPose (p : Pose3d)
  | mul (a b : Matrix4d)
  | inv (a : Matrix4d)
deriving DecidableEq, Repr

/-- A frame-graph vertex: a (not necessarily unique) name and a transform
payload. -/
structure Vertex where
  name : String
  data : Matrix4d
deriving DecidableEq, Repr

/-- A frame-graph edge: an ordered id pair plus the signed direction marker. -/
structure GraphEdge where
  tail : Nat
  head : Nat
  direction : Int
deriving DecidableEq, Repr

/-- Modelled from the spec: the Frame Graph.  Vertices are kept in insertion
order with graph-assigned, never-reused, strictly increasing ids; edges are
kept in insertion order. -/
structure FrameGraph where
  vertices : List (Nat × Vertex)
  edges : List GraphEdge
  nextId : Nat
deriving DecidableEq, Repr

/-- The empty frame graph. -/
def FrameGraph.empty : FrameGraph := ⟨[], [], 0⟩

/-- Modelled from the spec: `AddVertex(name, transform)` inserts with a fresh
unique id and never fails; duplicate names are permitted, not merged.
Returns the new vertex id together with the updated graph. -/
def FrameGraph.AddVertex (g : FrameGraph) (name : String) (data : Matrix4d) :
    Nat × FrameGraph :=
  (g.nextId,
    { vertices := g.vertices ++ [(g.nextId, ⟨name, data⟩)]
      edges := g.edges
      nextId := g.nextId + 1 })

/-- Modelled from the spec: `Vertices(name)` returns all vertices registered
under that name, in insertion order, as (id, vertex) pairs. -/
def FrameGraph.Vertices (g : FrameGraph) (name : String) : List (Nat × Vertex) :=
  g.vertices.filter (fun p => p.2.name = name)

/-- Whether an id is present in the graph. -/
def FrameGraph.hasId (g : FrameGraph) (id : Nat) : Bool :=
  g.vertices.any (fun p => p.1 = id)

/-- Modelled from the spec: `AddEdge((fromId, toId), direction)` fails with no
mutation when either id is absent. -/
def FrameGraph.AddEdge (g : FrameGraph) (a b : Nat) (dir : Int) : FrameGraph :=
  if g.hasId a && g.hasId b then
    { g with edges := g.edges ++ [⟨a, b, dir⟩] }
  else
    g

/-- Modelled from the spec: `VertexFromId(id)` fails with NotFound when the id
is absent (modelled as `none`). -/
def FrameGraph.VertexFromId (g : FrameGraph) (id : Nat) : Option Vertex :=
  (g.vertices.find? (fun p => p.1 = id)).map (fun p => p.2)

/-- Payload write through `VertexFromId(id).Data() = m`; absent ids leave the
graph unchanged. -/
def FrameGraph.SetVertexData (g : FrameGraph) (id : Nat) (m : Matrix4d) :
    FrameGraph :=
  { g with
    vertices := g.vertices.map (fun p =>
      if p.1 = id then (p.1, ⟨p.2.name, m⟩) else p) }

/-- Modelled from the spec: an auxiliary (axis) sub-element.  Its internal
structure is out of scope of the verified claims; the diagnostics its loader
yields are carried on the input element (`Element.axisDiag`). -/
inductive JointAxis where
  | mk
deriving DecidableEq, Repr

/-- The in-memory contract of a parsed description element (spec §6): a kind
tag, an optional name attribute, a mapping from child-value keys to string
values, an optional pose child (pose value and its frame attribute), and the
two optional axis sub-elements, each carrying the diagnostics its own loader
yields. -/
structure Element where
  tag : String
  nameAttr : Option String
  params : List (String × String)
  pose : Option (Pose3d × String)
  hasAxis : Bool
  hasAxis2 : Bool
  axisDiag : List Error
  axis2Diag : List Error
deriving DecidableEq, Repr

/-- Accessor `Get<std::string>(key, "")`: the (typed value, present-or-defaulted flag)
pair of the external attribute-parsing collaborator (spec §6). -/
def Element.get (e : Element) (key : String) : String × Bool :=
  match e.params.find? (fun p => p.1 = key) with
  | some p => (p.2, true)
  | none => ("", false)

/-- Modelled from the spec: `loadName` extracts the identifying name; it
reports failure when the name attribute is missing, leaving the name empty. -/
def loadName (e : Element) : Bool × String :=
  match e.nameAttr with
  | some n => (true, n)
  | none => (false, "")

/-- Modelled from the spec: `loadPose` extracts the optional local pose and
its expressed-in frame name; when the pose child is absent it reports failure
and leaves both values untouched. -/
def loadPose (e : Element) (pose0 : Pose3d) (frame0 : String) :
    Pose3d × String × Bool :=
  match e.pose with
  | some pf => (pf.1, pf.2, true)
  | none => (pose0, frame0, false)

/-- The private state of a Joint (`sdf::JointPrivate`), plus an explicit
`ubDereference` marker recording that the load path dereferenced the first
element of an empty name-lookup result (undefined behaviour in the source). -/
structure JointState where
  parentLinkName : String
  childLinkName : String
  type : JointType
  pose : Pose3d
  poseFrame : String
  axis0 : Option JointAxis
  axis1 : Option JointAxis
  frameGraph : FrameGraph
  frameVertexId : Nat
  sdf : Option Element
  ubDereference : Bool
deriving DecidableEq, Repr

namespace Joint

/-- Constructor `Joint::Joint()`: creates a fresh frame graph holding one vertex with an
empty name and identity payload, and remembers its id. -/
def init : JointState :=
  let av := FrameGraph.empty.AddVertex "" Matrix4d.identity
  { parentLinkName := ""
    childLinkName := ""
    type := JointType.INVALID
    pose := Pose3d.Zero
    poseFrame := ""
    axis0 := none
    axis1 := none
    frameGraph := av.2
    frameVertexId := av.1
    sdf := none
    ubDereference := false }

/-- The fatal diagnostic for a non-`<joint>` element. -/
def incorrectTypeError : Error :=
  ⟨ErrorCode.ELEMENT_INCORRECT_TYPE,
    "Attempting to load a Joint, but the provided SDF element is not a <joint>."⟩

/-- The diagnostic for a missing joint name. -/
def nameMissingError : Error :=
  ⟨ErrorCode.ATTRIBUTE_MISSING,
    "A joint name is required, but the name is not set."⟩

/-- The diagnostic for a missing parent element. -/
def parentMissingError : Error :=
  ⟨ErrorCode.ELEMENT_MISSING, "The parent element is missing."⟩

/-- The diagnostic for a missing child element. -/
def childMissingError : Error :=
  ⟨ErrorCode.ELEMENT_MISSING, "The child element is missing."⟩

/-- The diagnostic for an unrecognised joint type; it carries the
(case-normalised) offending text. -/
def invalidTypeError (lowered : String) : Error :=
  ⟨ErrorCode.ATTRIBUTE_INVALID,
    "Joint type of " ++ lowered ++
      " is invalid. Refer to the SDF documentation for a list of valid joint types"⟩

/-- The diagnostic for a missing joint type. -/
def typeMissingError : Error :=
  ⟨ErrorCode.ATTRIBUTE_MISSING, "A joint type is required, but is not set."⟩

/-- The diagnostic for a missing frame graph. -/
def graphMissingError : Error :=
  ⟨ErrorCode.FUNCTION_ARGUMENT_MISSING,
    "A frame graph is required to compute pose information."⟩

/-- The per-character lowercasing of `Joint::Load` (`std::transform` with
`std::tolower` over the type string). -/
def strLower (s : String) : String := ⟨s.data.map Char.toLower⟩

/-- The case-insensitive comparison chain of `Joint::Load` on the
already-lowercased type string. -/
def jointTypeOfLower (t : String) : Option JointType :=
  if t = "ball" then some JointType.BALL
  else if t = "continuous" then some JointType.CONTINUOUS
  else if t = "fixed" then some JointType.FIXED
  else if t = "gearbox" then some JointType.GEARBOX
  else if t = "prismatic" then some JointType.PRISMATIC
  else if t = "revolute" then some JointType.REVOLUTE
  else if t = "revolute2" then some JointType.REVOLUTE2
  else if t = "screw" then some JointType.SCREW
  else if t = "universal" then some JointType.UNIVERSAL
  else none

/-- Function `Joint::Load(_sdf, _frameGraph)`, transcribed step by step from
`src/Joint.cc`.  Returns the updated joint state, the supplied frame graph
after any mutation (`none` when none was supplied), and the accumulated
diagnostics list.  The sequential member assignments of the source become a
chain of state updates `s0 … s7`; the diagnostics are appended in exactly the
push order of the source (name, parent, child, axis, axis2, type, graph). -/
def Load (s : JointState) (e : Element) (fg : Option FrameGraph) :
    JointState × Option FrameGraph × List Error :=
  -- this->dataPtr->sdf = _sdf
  let s0 := { s with sdf := some e }
  -- Check that the provided SDF element is a <joint>
  if e.tag ≠ "joint" then
    (s0, fg, [incorrectTypeError])
  else
    -- Read the name of the joint
    let nameRes := loadName e
    let jointName := nameRes.2
    let nameErrs := if nameRes.1 then ([] : List Error) else [nameMissingError]
    -- Read the parent link name
    let parentPair := e.get "parent"
    let s1 := if parentPair.2 then { s0 with parentLinkName := parentPair.1 } else s0
    let parentErrs := if parentPair.2 then ([] : List Error) else [parentMissingError]
    -- Read the child link name
    let childPair := e.get "child"
    let s2 := if childPair.2 then { s1 with childLinkName := childPair.1 } else s1
    let childErrs := if childPair.2 then ([] : List Error) else [childMissingError]
    -- Load the pose; the return value is ignored since the pose is optional
    let pf := loadPose e s2.pose s2.poseFrame
    let s3 := { s2 with pose := pf.1, poseFrame := pf.2.1 }
    -- Default the pose frame to the child link name when empty
    let s4 := if s3.poseFrame.isEmpty then { s3 with poseFrame := s3.childLinkName } else s3
    -- Load the optional axis sub-elements
    let s5 := if e.hasAxis then { s4 with axis0 := some JointAxis.mk } else s4
    let axisErrs := if e.hasAxis then e.axisDiag else ([] : List Error)
    let s6 := if e.hasAxis2 then { s5 with axis1 := some JointAxis.mk } else s5
    let axis2Errs := if e.hasAxis2 then e.axis2Diag else ([] : List Error)
    -- Read the type (lowercased, then matched against the enumeration)
    let typePair := e.get "type"
    let typeRes :=
      if typePair.2 then
        match jointTypeOfLower (strLower typePair.1) with
        | some t => (t, ([] : List Error))
        | none => (JointType.INVALID, [invalidTypeError (strLower typePair.1)])
      else
        (s6.type, [typeMissingError])
    let s7 := { s6 with type := typeRes.1 }
    let errs := nameErrs ++ parentErrs ++ childErrs ++ axisErrs ++ axis2Errs ++ typeRes.2
    -- Frame-graph wiring
    match fg with
    | some g =>
        -- Add a vertex in the frame graph for this joint
        let av := g.AddVertex jointName (Matrix4d.ofPose s7.pose)
        let s8 := { s7 with frameVertexId := av.1 }
        -- Get the parent vertex based on the pose frame name of this joint
        let parentVertices := av.2.Vertices s8.poseFrame
        match parentVertices.head? with
        | some pk =>
            -- Connect the parent to the child, then the child to the parent
            let g1 := av.2.AddEdge pk.1 s8.frameVertexId (-1)
            let g2 := g1.AddEdge s8.frameVertexId pk.1 1
            ({ s8 with frameGraph := g2 }, some g2, errs)
        | none =>
            -- The source dereferences parentVertices.begin() with no emptiness
            -- check (a todo note in the source records the missing check): mark the
            -- undefined behaviour explicitly
            ({ s8 with frameGraph := av.2, ubDereference := true }, some av.2, errs)
    | none =>
        (s7, none, errs ++ [graphMissingError])

/-- Accessor `Joint::Name()`: the name of the graph vertex of the joint (empty when the
id is not resolvable). -/
def Name (s : JointState) : String :=
  ((s.frameGraph.VertexFromId s.frameVertexId).map Vertex.name).getD ""

/-- Accessor `Joint::Type()` (named `TypeOf` here because `Type` is reserved in Lean). -/
def TypeOf (s : JointState) : JointType := s.type

/-- Setter `Joint::SetType(_jointType)`. -/
def SetType (s : JointState) (t : JointType) : JointState := { s with type := t }

/-- Accessor `Joint::ParentLinkName()`. -/
def ParentLinkName (s : JointState) : String := s.parentLinkName

/-- Setter `Joint::SetParentLinkName(_name)`: a plain field assignment. -/
def SetParentLinkName (s : JointState) (n : String) : JointState :=
  { s with parentLinkName := n }

/-- Accessor `Joint::ChildLinkName()`. -/
def ChildLinkName (s : JointState) : String := s.childLinkName

/-- Setter `Joint::SetChildLinkName(_name)`: a plain field assignment. -/
def SetChildLinkName (s : JointState) (n : String) : JointState :=
  { s with childLinkName := n }

/-- Accessor `Joint::Pose()`. -/
def Pose (s : JointState) : Pose3d := s.pose

/-- Accessor `Joint::PoseFrame()`. -/
def PoseFrame (s : JointState) : String := s.poseFrame

/-- Setter `Joint::SetPose(_pose)`: writes the graph vertex payload through
`VertexFromId(id).Data()`, then stores the pose field. -/
def SetPose (s : JointState) (p : Pose3d) : JointState :=
  { s with
    frameGraph := s.frameGraph.SetVertexData s.frameVertexId (Matrix4d.ofPose p)
    pose := p }

/-- Setter `Joint::SetPoseFrame(_frame)`: rejects the empty string. -/
def SetPoseFrame (s : JointState) (f : String) : Bool × JointState :=
  if f.isEmpty then
    (false, s)
  else
    (true, { s with poseFrame := f })

end Joint

/-- Failure modes of the pose resolver. -/
inductive ResolveError where
  | NotFound
  | NoPath
deriving DecidableEq, Repr

/-- The outgoing neighbours of a vertex, with the stored direction marker of
the connecting edge. -/
def FrameGraph.neighbors (g : FrameGraph) (id : Nat) : List (Nat × Int) :=
  (g.edges.filter (fun ed => ed.tail = id)).map (fun ed => (ed.head, ed.direction))

/-- The transform payload of a vertex (identity when the id is absent; the
resolver only follows edges between present ids). -/
def FrameGraph.payload (g : FrameGraph) (id : Nat) : Matrix4d :=
  ((g.VertexFromId id).map Vertex.data).getD Matrix4d.identity

/-- Modelled from the spec: the breadth-first search of the pose resolver.
The frontier carries each reached vertex with the transform composed along
the path to it; at each traversed edge the running transform is multiplied by
the payload of the destination vertex when the stored direction is positive, and
by its inverse otherwise.  Fuel bounds the traversal; a failed search fails
with NoPath. -/
def resolveBFS (g : FrameGraph) (tgt : Nat) :
    Nat → List (Nat × Matrix4d) → List Nat → Except ResolveError Matrix4d
  | 0, _, _ => Except.error ResolveError.NoPath
  | _ + 1, [], _ => Except.error ResolveError.NoPath
  | fuel + 1, (u, m) :: rest, visited =>
      if u = tgt then
        Except.ok m
      else if visited.contains u then
        resolveBFS g tgt fuel rest visited
      else
        let next := (g.neighbors u).map (fun nd =>
          (nd.1,
            if nd.2 = 1 then m.mul (g.payload nd.1)
            else m.mul (g.payload nd.1).inv))
        resolveBFS g tgt fuel (rest ++ next) (u :: visited)

/-- Modelled from the spec: `poseInFrame(sourceName, targetName, graph)`.
Equal source and target names return identity without traversal, checked
before the search; a name with zero matches fails with NotFound; ambiguity is
resolved deterministically to the first-inserted vertex. -/
def poseInFrame (src tgt : String) (g : FrameGraph) :
    Except ResolveError Matrix4d :=
  if src = tgt then
    Except.ok Matrix4d.identity
  else
    match (g.Vertices src).head?, (g.Vertices tgt).head? with
    | some sv, some tv =>
        resolveBFS g tv.1 (g.vertices.length * g.edges.length + g.vertices.length + 1)
          [(sv.1, Matrix4d.identity)] []
    | _, _ => Except.error ResolveError.NotFound

/-- Query `Joint::PoseInFrame(_frame)`: delegates to the resolver, substituting the
stored pose frame when the queried frame name is empty. -/
def Joint.PoseInFrame (s : JointState) (f : String) :
    Except ResolveError Matrix4d :=
  poseInFrame (Joint.Name s) (if f.isEmpty then Joint.PoseFrame s else f)
    s.frameGraph

namespace Joint

/-- Field-wise closed form of the state `Load` produces before the frame-graph
step (proved equal to `Load` in `load_none_eq` / `load_some_eq`; used to state
and prove properties of `Load`). -/
def loadedFields (s : JointState) (e : Element) : JointState :=
  { s with
    sdf := some e
    parentLinkName := if (e.get "parent").2 then (e.get "parent").1 else s.parentLinkName
    childLinkName := if (e.get "child").2 then (e.get "child").1 else s.childLinkName
    pose := (loadPose e s.pose s.poseFrame).1
    poseFrame :=
      if (loadPose e s.pose s.poseFrame).2.1.isEmpty then
        (if (e.get "child").2 then (e.get "child").1 else s.childLinkName)
      else (loadPose e s.pose s.poseFrame).2.1
    axis0 := if e.hasAxis then some JointAxis.mk else s.axis0
    axis1 := if e.hasAxis2 then some JointAxis.mk else s.axis1
    type :=
      if (e.get "type").2 then
        (match jointTypeOfLower (strLower (e.get "type").1) with
         | some t => t
         | none => JointType.INVALID)
      else s.type }

/-- Closed form of the diagnostics `Load` accumulates before the frame-graph
step, in push order. -/
def loadErrors (e : Element) : List Error :=
  (if (loadName e).1 then ([] : List Error) else [nameMissingError])
  ++ (if (e.get "parent").2 then ([] : List Error) else [parentMissingError])
  ++ (if (e.get "child").2 then ([] : List Error) else [childMissingError])
  ++ (if e.hasAxis then e.axisDiag else ([] : List Error))
  ++ (if e.hasAxis2 then e.axis2Diag else ([] : List Error))
  ++ (if (e.get "type").2 then
        (match jointTypeOfLower (strLower (e.get "type").1) with
         | some _ => ([] : List Error)
         | none => [invalidTypeError (strLower (e.get "type").1)])
      else [typeMissingError])

/-- Closed form of the frame-graph step of `Load` (proved to agree with `Load`
in `load_some_eq`). -/
def wireFrame (s7 : JointState) (jointName : String) (g : FrameGraph) :
    JointState × FrameGraph :=
  let av := g.AddVertex jointName (Matrix4d.ofPose s7.pose)
  let s8 := { s7 with frameVertexId := av.1 }
  match (av.2.Vertices s8.poseFrame).head? with
  | some pk =>
      let g1 := av.2.AddEdge pk.1 s8.frameVertexId (-1)
      let g2 := g1.AddEdge s8.frameVertexId pk.1 1
      ({ s8 with frameGraph := g2 }, g2)
  | none => ({ s8 with frameGraph := av.2, ubDereference := true }, av.2)

end Joint

/-- A concrete non-joint element (kind tag `link`). -/
def linkElem : Element := ⟨"link", some "j", [], none, false, false, [], []⟩

/-- A concrete well-formed joint element with parent `P` and child `C` and no
pose child. -/
def jointElemPC : Element :=
  ⟨"joint", some "j", [("parent", "P"), ("child", "C"), ("type", "revolute")],
    none, false, false, [], []⟩

/-- A concrete joint element with parent `A` and child `B`. -/
def jointElemAB : Element :=
  ⟨"joint", some "j", [("parent", "A"), ("child", "B"), ("type", "revolute")],
    none, false, false, [], []⟩

/-- A concrete joint element whose child element is missing and whose pose
child is absent. -/
def jointElemNoChild : Element :=
  ⟨"joint", some "j", [("parent", "P"), ("type", "revolute")],
    none, false, false, [], []⟩

/-- A concrete joint element whose type string matches no enumeration value. -/
def jointElemBadType : Element :=
  ⟨"joint", some "j", [("parent", "P"), ("child", "C"), ("type", "Foo")],
    none, false, false, [], []⟩

/-- A concrete frame graph holding a vertex named `P` (id 0) and a vertex
named `C` (id 1). -/
def graphPC : FrameGraph :=
  ((FrameGraph.empty.AddVertex "P" Matrix4d.identity).2.AddVertex "C"
    Matrix4d.identity).2

/-- A concrete pose used by witnesses. -/
def samplePose : Pose3d := ⟨1, 2, 3, 1, 0, 0, 0⟩

namespace Joint

lemma load_none_eq (s : JointState) (e : Element) (htag : e.tag = "joint") :
    Joint.Load s e none = (loadedFields s e, none, loadErrors e ++ [graphMissingError]) := by
  unfold Joint.Load loadedFields loadErrors
  rw [if_neg (by simp [htag])]
  by_cases hp : (e.get "parent").2 <;>
  by_cases hc : (e.get "child").2 <;>
  by_cases hn : (loadName e).1 <;>
  by_cases ha : e.hasAxis <;>
  by_cases hb : e.hasAxis2 <;>
  by_cases ht : (e.get "type").2 <;>
  rcases hm : jointTypeOfLower (strLower (e.get "type").1) with _ | t <;>
  by_cases hf : (loadPose e s.pose s.poseFrame).2.1.isEmpty <;>
  simp [hp, hc, hn, ha, hb, ht, hm, hf]

set_option maxHeartbeats 2000000 in
lemma load_some_eq (s : JointState) (e : Element) (g : FrameGraph)
    (htag : e.tag = "joint") :
    Joint.Load s e (some g) =
      ((wireFrame (loadedFields s e) (loadName e).2 g).1,
        some (wireFrame (loadedFields s e) (loadName e).2 g).2,
        loadErrors e) := by
  unfold Joint.Load loadedFields loadErrors wireFrame
  rw [if_neg (by simp [htag])]
  by_cases hp : (e.get "parent").2 <;>
  by_cases hc : (e.get "child").2 <;>
  by_cases hn : (loadName e).1 <;>
  by_cases ha : e.hasAxis <;>
  by_cases hb : e.hasAxis2 <;>
  by_cases ht : (e.get "type").2 <;>
  rcases hm : jointTypeOfLower (strLower (e.get "type").1) with _ | t <;>
  by_cases hf : (loadPose e s.pose s.poseFrame).2.1.isEmpty <;>
  (simp [hp, hc, hn, ha, hb, ht, hm, hf]; try (split <;> simp_all))

end Joint

/-- Operation `AddEdge` never changes the vertex list. -/
lemma FrameGraph.AddEdge_vertices (g : FrameGraph) (a b : Nat) (d : Int) :
    (g.AddEdge a b d).vertices = g.vertices := by
  unfold FrameGraph.AddEdge
  split <;> rfl

/-- Operation `AddEdge` appends the edge when both ids are present. -/
lemma FrameGraph.AddEdge_pos (g : FrameGraph) (a b : Nat) (d : Int)
    (ha : g.hasId a) (hb : g.hasId b) :
    g.AddEdge a b d = { g with edges := g.edges ++ [⟨a, b, d⟩] } := by
  simp [FrameGraph.AddEdge, ha, hb]

/-- A head of a name lookup is an id present in the graph. -/
lemma FrameGraph.hasId_of_vertices_head (g : FrameGraph) (name : String)
    (pk : Nat × Vertex) (h : (g.Vertices name).head? = some pk) :
    g.hasId pk.1 := by
  have hmem : pk ∈ g.Vertices name := by
    rcases hl : g.Vertices name with _ | ⟨x, xs⟩ <;> simp_all
  have hmem2 : pk ∈ g.vertices := List.mem_of_mem_filter hmem
  simp [FrameGraph.hasId]
  exact ⟨pk.2, hmem2⟩

/-- Adding a vertex does not change the head of a nonempty name lookup. -/
lemma FrameGraph.vertices_addVertex_head (g : FrameGraph) (n name : String)
    (d : Matrix4d) (pk : Nat × Vertex) (h : (g.Vertices name).head? = some pk) :
    ((g.AddVertex n d).2.Vertices name).head? = some pk := by
  unfold FrameGraph.Vertices FrameGraph.AddVertex at *
  simp only [List.filter_append]
  rcases hl : g.vertices.filter (fun p => p.2.name = name) with _ | ⟨x, xs⟩ <;>
    simp_all

/-- The fresh vertex id is present after `AddVertex`. -/
lemma FrameGraph.hasId_addVertex_self (g : FrameGraph) (n : String) (d : Matrix4d) :
    (g.AddVertex n d).2.hasId (g.AddVertex n d).1 := by
  simp [FrameGraph.hasId, FrameGraph.AddVertex]

/-- Present ids stay present after `AddVertex`. -/
lemma FrameGraph.hasId_addVertex_of_hasId (g : FrameGraph) (n : String)
    (d : Matrix4d) (a : Nat) (h : g.hasId a) :
    (g.AddVertex n d).2.hasId a := by
  simp only [FrameGraph.hasId, FrameGraph.AddVertex, List.any_append] at *
  simp [h]

/-- Operation `AddEdge` preserves id presence. -/
lemma FrameGraph.AddEdge_hasId (g : FrameGraph) (a b x : Nat) (d : Int) :
    (g.AddEdge a b d).hasId x = g.hasId x := by
  simp [FrameGraph.hasId, FrameGraph.AddEdge_vertices]

/-- The frame-graph step never changes the pose frame. -/
lemma Joint.wireFrame_poseFrame (s7 : JointState) (j : String) (g : FrameGraph) :
    (Joint.wireFrame s7 j g).1.poseFrame = s7.poseFrame := by
  unfold Joint.wireFrame
  dsimp only
  split <;> rfl

/-- The frame-graph step never changes the child link name. -/
lemma Joint.wireFrame_childLinkName (s7 : JointState) (j : String) (g : FrameGraph) :
    (Joint.wireFrame s7 j g).1.childLinkName = s7.childLinkName := by
  unfold Joint.wireFrame
  dsimp only
  split <;> rfl

/-- The frame-graph step never changes the type classification. -/
lemma Joint.wireFrame_type (s7 : JointState) (j : String) (g : FrameGraph) :
    (Joint.wireFrame s7 j g).1.type = s7.type := by
  unfold Joint.wireFrame
  dsimp only
  split <;> rfl

/-- The frame-graph step never changes the pose. -/
lemma Joint.wireFrame_pose (s7 : JointState) (j : String) (g : FrameGraph) :
    (Joint.wireFrame s7 j g).1.pose = s7.pose := by
  unfold Joint.wireFrame
  dsimp only
  split <;> rfl

/-- Function `Load` produces the field-wise pose frame for any graph argument. -/
lemma Joint.load_poseFrame (s : JointState) (e : Element) (fg : Option FrameGraph)
    (htag : e.tag = "joint") :
    (Joint.Load s e fg).1.poseFrame = (Joint.loadedFields s e).poseFrame := by
  cases fg with
  | none => rw [Joint.load_none_eq s e htag]
  | some g =>
      rw [Joint.load_some_eq s e g htag]
      exact Joint.wireFrame_poseFrame _ _ _

/-- Function `Load` produces the field-wise child link name for any graph argument. -/
lemma Joint.load_childLinkName (s : JointState) (e : Element) (fg : Option FrameGraph)
    (htag : e.tag = "joint") :
    (Joint.Load s e fg).1.childLinkName = (Joint.loadedFields s e).childLinkName := by
  cases fg with
  | none => rw [Joint.load_none_eq s e htag]
  | some g =>
      rw [Joint.load_some_eq s e g htag]
      exact Joint.wireFrame_childLinkName _ _ _

/-- Function `Load` produces the field-wise type classification for any graph argument. -/
lemma Joint.load_type (s : JointState) (e : Element) (fg : Option FrameGraph)
    (htag : e.tag = "joint") :
    (Joint.Load s e fg).1.type = (Joint.loadedFields s e).type := by
  cases fg with
  | none => rw [Joint.load_none_eq s e htag]
  | some g =>
      rw [Joint.load_some_eq s e g htag]
      exact Joint.wireFrame_type _ _ _

/-- The diagnostics of `Load` always extend the pre-graph diagnostics list. -/
lemma Joint.load_errors_mem (s : JointState) (e : Element) (fg : Option FrameGraph)
    (err : Error) (htag : e.tag = "joint") (h : err ∈ Joint.loadErrors e) :
    err ∈ (Joint.Load s e fg).2.2 := by
  cases fg with
  | none =>
      rw [Joint.load_none_eq s e htag]
      simp [List.mem_append]
      exact Or.inl h
  | some g =>
      rw [Joint.load_some_eq s e g htag]
      exact h

/-- Updating the payload of a found entry is visible through `find?`. -/
lemma find?_map_update (l : List (Nat × Vertex)) (id : Nat) (m : Matrix4d)
    (v : Vertex)
    (h : ((l.find? (fun p => p.1 = id)).map (fun p => p.2)) = some v) :
    (((l.map (fun p => if p.1 = id then (p.1, ⟨p.2.name, m⟩) else p)).find?
        (fun p => p.1 = id)).map (fun p => p.2)) = some ⟨v.name, m⟩ := by
  induction l with
  | nil => simp at h
  | cons x xs ih =>
      by_cases hx : x.1 = id
      · simp [List.find?, hx] at h ⊢
        rw [h]
      · rw [List.find?_cons_of_neg _ (by simp [hx])] at h
        rw [List.map_cons, if_neg hx, List.find?_cons_of_neg _ (by simp [hx])]
        exact ih h

/-- Operation `SetVertexData` rewrites exactly the payload of the addressed vertex. -/
lemma FrameGraph.VertexFromId_SetVertexData (g : FrameGraph) (id : Nat)
    (m : Matrix4d) (v : Vertex) (h : g.VertexFromId id = some v) :
    (g.SetVertexData id m).VertexFromId id = some ⟨v.name, m⟩ := by
  unfold FrameGraph.VertexFromId FrameGraph.SetVertexData at *
  exact find?_map_update g.vertices id m v h

/-- When the pose-frame lookup on the original graph is nonempty, the
frame-graph step adds exactly one vertex and the complementary edge pair to
its first match. -/
lemma Joint.wireFrame_eq_of_head (s7 : JointState) (j : String) (g : FrameGraph)
    (pk : Nat × Vertex) (hpk : (g.Vertices s7.poseFrame).head? = some pk) :
    Joint.wireFrame s7 j g =
      ({ s7 with
          frameVertexId := g.nextId
          frameGraph :=
            { vertices := g.vertices ++ [(g.nextId, ⟨j, Matrix4d.ofPose s7.pose⟩)]
              edges := g.edges ++ [⟨pk.1, g.nextId, -1⟩, ⟨g.nextId, pk.1, 1⟩]
              nextId := g.nextId + 1 } },
        { vertices := g.vertices ++ [(g.nextId, ⟨j, Matrix4d.ofPose s7.pose⟩)]
          edges := g.edges ++ [⟨pk.1, g.nextId, -1⟩, ⟨g.nextId, pk.1, 1⟩]
          nextId := g.nextId + 1 }) := by
  have hid0 : g.hasId pk.1 := FrameGraph.hasId_of_vertices_head g s7.poseFrame pk hpk
  unfold Joint.wireFrame
  dsimp only
  have hsc : (((g.AddVertex j (Matrix4d.ofPose s7.pose)).2).Vertices
      s7.poseFrame).head? = some pk :=
    FrameGraph.vertices_addVertex_head g j s7.poseFrame (Matrix4d.ofPose s7.pose)
      pk hpk
  simp only [hsc]
  have hid1 : ((g.AddVertex j (Matrix4d.ofPose s7.pose)).2).hasId pk.1 :=
    FrameGraph.hasId_addVertex_of_hasId g j (Matrix4d.ofPose s7.pose) pk.1 hid0
  have hid2 : ((g.AddVertex j (Matrix4d.ofPose s7.pose)).2).hasId
      (g.AddVertex j (Matrix4d.ofPose s7.pose)).1 :=
    FrameGraph.hasId_addVertex_self g j (Matrix4d.ofPose s7.pose)
  simp only [FrameGraph.hasId, FrameGraph.AddVertex] at hid1 hid2
  simp [FrameGraph.AddEdge, FrameGraph.hasId, FrameGraph.AddVertex, hid1, hid2,
    List.append_assoc]

/-- C4: for every element whose kind tag is not `joint`, `Load` returns exactly
one ELEMENT_INCORRECT_TYPE diagnostic and nothing else, leaves the supplied
frame graph and the whole joint state (apart from the raw-element pointer)
unchanged, and aborts further parsing of the element. -/
theorem spec_joint_load_incorrect_element_kind (s : JointState) (e : Element)
    (fg : Option FrameGraph) (h : e.tag ≠ "joint") :
    Joint.Load s e fg = ({ s with sdf := some e }, fg, [Joint.incorrectTypeError]) := by
  unfold Joint.Load
  rw [if_pos h]

/-- C4 witness: loading a concrete `link` element aborts with the single
structural-mismatch diagnostic and no graph change. -/
theorem spec_joint_load_incorrect_element_kind_witness :
    (linkElem.tag ≠ "joint")
    ∧ Joint.Load Joint.init linkElem (some graphPC)
        = ({ Joint.init with sdf := some linkElem }, some graphPC,
            [Joint.incorrectTypeError]) :=
  ⟨by decide,
    spec_joint_load_incorrect_element_kind Joint.init linkElem (some graphPC)
      (by decide)⟩

/-- C9: the reference-frame (parent) and dependent-frame (child) name setters
mutate only the corresponding name field; the frame graph and every other
joint field are left unchanged. -/
theorem spec_joint_set_link_names_plain_fields (s : JointState) (n : String) :
    (Joint.SetParentLinkName s n).parentLinkName = n
    ∧ (Joint.SetParentLinkName s n).childLinkName = s.childLinkName
    ∧ (Joint.SetParentLinkName s n).type = s.type
    ∧ (Joint.SetParentLinkName s n).pose = s.pose
    ∧ (Joint.SetParentLinkName s n).poseFrame = s.poseFrame
    ∧ (Joint.SetParentLinkName s n).axis0 = s.axis0
    ∧ (Joint.SetParentLinkName s n).axis1 = s.axis1
    ∧ (Joint.SetParentLinkName s n).frameGraph = s.frameGraph
    ∧ (Joint.SetParentLinkName s n).frameVertexId = s.frameVertexId
    ∧ (Joint.SetParentLinkName s n).sdf = s.sdf
    ∧ (Joint.SetParentLinkName s n).ubDereference = s.ubDereference
    ∧ (Joint.SetChildLinkName s n).childLinkName = n
    ∧ (Joint.SetChildLinkName s n).parentLinkName = s.parentLinkName
    ∧ (Joint.SetChildLinkName s n).type = s.type
    ∧ (Joint.SetChildLinkName s n).pose = s.pose
    ∧ (Joint.SetChildLinkName s n).poseFrame = s.poseFrame
    ∧ (Joint.SetChildLinkName s n).axis0 = s.axis0
    ∧ (Joint.SetChildLinkName s n).axis1 = s.axis1
    ∧ (Joint.SetChildLinkName s n).frameGraph = s.frameGraph
    ∧ (Joint.SetChildLinkName s n).frameVertexId = s.frameVertexId
    ∧ (Joint.SetChildLinkName s n).sdf = s.sdf
    ∧ (Joint.SetChildLinkName s n).ubDereference = s.ubDereference := by
  simp [Joint.SetParentLinkName, Joint.SetChildLinkName]

/-- C10: `SetPoseFrame` returns false and leaves every field unchanged on the
empty string, and returns true and stores the frame name otherwise. -/
theorem spec_joint_set_pose_frame_guard (s : JointState) (f : String) :
    (Joint.SetPoseFrame s f).1 = decide (f ≠ "")
    ∧ (Joint.SetPoseFrame s f).2.poseFrame = (if f = "" then s.poseFrame else f)
    ∧ (Joint.SetPoseFrame s f).2.parentLinkName = s.parentLinkName
    ∧ (Joint.SetPoseFrame s f).2.childLinkName = s.childLinkName
    ∧ (Joint.SetPoseFrame s f).2.type = s.type
    ∧ (Joint.SetPoseFrame s f).2.pose = s.pose
    ∧ (Joint.SetPoseFrame s f).2.axis0 = s.axis0
    ∧ (Joint.SetPoseFrame s f).2.axis1 = s.axis1
    ∧ (Joint.SetPoseFrame s f).2.frameGraph = s.frameGraph
    ∧ (Joint.SetPoseFrame s f).2.frameVertexId = s.frameVertexId
    ∧ (Joint.SetPoseFrame s f).2.sdf = s.sdf := by
  by_cases hf : f = "" <;>
    simp [Joint.SetPoseFrame, String.isEmpty_iff, hf]

/-- C2: the code dereferences the first element of the name lookup with no
emptiness check.  At the concrete failing input below the lookup for the pose
frame name `B` is empty after the joint vertex is added, and the load reaches
the dereference-of-empty-lookup (undefined behaviour in the source, marked by
the `ubDereference` flag of the model); no handled error branch exists. -/
theorem spec_joint_load_empty_lookup_unchecked :
    ((FrameGraph.empty.AddVertex "j" (Matrix4d.ofPose Pose3d.Zero)).2.Vertices "B"
      = [])
    ∧ (Joint.Load Joint.init jointElemAB (some FrameGraph.empty)).1.ubDereference
        = true := by
  decide

/-- C1 counterexample: the edge pair is not wired to a vertex registered under
the reference-frame (parent) name.  With parent `P` (vertex id 0) and child
`C` (vertex id 1) present, the inserted edge pair connects the pose-frame
vertex (the child `C`, since no pose frame was parsed) to the new vertex
(id 2); no inserted edge touches the parent vertex id 0. -/
theorem spec_joint_load_edges_not_parent_name :
    jointElemPC.get "parent" = ("P", true)
    ∧ graphPC.Vertices "P" = [(0, ⟨"P", Matrix4d.identity⟩)]
    ∧ ((Joint.Load Joint.init jointElemPC (some graphPC)).1.frameGraph.edges
        = [⟨1, 2, -1⟩, ⟨2, 1, 1⟩])
    ∧ (∀ ed ∈ (Joint.Load Joint.init jointElemPC (some graphPC)).1.frameGraph.edges,
        ed.tail ≠ 0 ∧ ed.head ≠ 0) := by
  decide

/-- C3 counterexample: a well-formed joint element with no child element and
no pose child loads with an empty pose-frame name. -/
theorem spec_joint_load_pose_frame_empty_case :
    jointElemNoChild.tag = "joint"
    ∧ (Joint.Load Joint.init jointElemNoChild none).1.poseFrame = "" := by
  decide

/-- C7 counterexample: after loading without a frame graph an element whose
child element and pose frame are both absent, the pose query with an empty
frame name resolves source and target to the same (empty) name and succeeds
with the identity transform instead of failing. -/
theorem spec_joint_load_without_graph_identity_query :
    ((Joint.Load Joint.init jointElemNoChild none).2.2
      = [Joint.childMissingError, Joint.graphMissingError])
    ∧ Joint.PoseInFrame (Joint.Load Joint.init jointElemNoChild none).1 ""
        = Except.ok Matrix4d.identity :=
  ⟨by decide, by rfl⟩

/-- C1 (amended): for every element loaded with a frame graph supplied, when
the effective pose-frame name (the parsed pose frame, defaulting to the child
link name when empty) has at least one registered vertex, `Load` inserts
exactly one new vertex (name = the identifying joint name, payload = the
local pose as a transform) and inserts the complementary forward/backward
edge pair between the first vertex registered under that pose-frame name and
the new vertex; the stored graph pointer is the mutated supplied graph. -/
theorem spec_joint_load_wires_edge_pair (s : JointState) (e : Element)
    (g : FrameGraph) (pk : Nat × Vertex) (htag : e.tag = "joint")
    (hpk : (g.Vertices (Joint.loadedFields s e).poseFrame).head? = some pk) :
    ((Joint.Load s e (some g)).1.frameGraph.vertices
      = g.vertices ++ [(g.nextId,
          ⟨(loadName e).2, Matrix4d.ofPose (Joint.Load s e (some g)).1.pose⟩)])
    ∧ (Joint.Load s e (some g)).1.frameVertexId = g.nextId
    ∧ ((Joint.Load s e (some g)).1.frameGraph.edges
      = g.edges ++ [⟨pk.1, g.nextId, -1⟩, ⟨g.nextId, pk.1, 1⟩])
    ∧ (Joint.Load s e (some g)).2.1 = some (Joint.Load s e (some g)).1.frameGraph
    ∧ (Joint.Load s e (some g)).1.ubDereference = s.ubDereference := by
  rw [Joint.load_some_eq s e g htag,
    Joint.wireFrame_eq_of_head (Joint.loadedFields s e) (loadName e).2 g pk hpk]
  exact ⟨rfl, rfl, rfl, rfl, rfl⟩

/-- C1 witness: with the pose frame defaulting to child `C` whose vertex (id
1) is registered in the supplied graph, the load adds vertex 2 and the edge
pair between 1 and 2. -/
theorem spec_joint_load_wires_edge_pair_witness :
    ((graphPC.Vertices (Joint.loadedFields Joint.init jointElemPC).poseFrame).head?
      = some (1, ⟨"C", Matrix4d.identity⟩))
    ∧ ((Joint.Load Joint.init jointElemPC (some graphPC)).1.frameGraph.edges
        = graphPC.edges ++ [⟨(1, (⟨"C", Matrix4d.identity⟩ : Vertex)).1, graphPC.nextId, -1⟩,
            ⟨graphPC.nextId, (1, (⟨"C", Matrix4d.identity⟩ : Vertex)).1, 1⟩]) :=
  ⟨by decide,
    (spec_joint_load_wires_edge_pair Joint.init jointElemPC graphPC
      (1, ⟨"C", Matrix4d.identity⟩) (by decide) (by decide)).2.2.1⟩

/-- C3 (amended): for every joint-kind element, the pose-frame name after
`Load` is non-empty provided the parsed pose-frame name is non-empty or the
child link name after load is non-empty. -/
theorem spec_joint_load_pose_frame_nonempty (s : JointState) (e : Element)
    (fg : Option FrameGraph) (htag : e.tag = "joint")
    (h : (loadPose e s.pose s.poseFrame).2.1 ≠ ""
        ∨ (Joint.Load s e fg).1.childLinkName ≠ "") :
    (Joint.Load s e fg).1.poseFrame ≠ "" := by
  rw [Joint.load_poseFrame s e fg htag]
  rw [Joint.load_childLinkName s e fg htag] at h
  unfold Joint.loadedFields at *
  rcases h with h | h
  · simp [String.isEmpty_iff, h]
  · by_cases hf : (loadPose e s.pose s.poseFrame).2.1 = ""
    · simp only [String.isEmpty_iff]
      simp only at h
      simp [hf]
      exact h
    · simp [String.isEmpty_iff, hf]

/-- C3 witness: a joint element with child `C` loads with the non-empty
pose-frame name `C`. -/
theorem spec_joint_load_pose_frame_nonempty_witness :
    ((Joint.Load Joint.init jointElemPC none).1.childLinkName ≠ "")
    ∧ (Joint.Load Joint.init jointElemPC none).1.poseFrame ≠ "" :=
  ⟨by decide,
    spec_joint_load_pose_frame_nonempty Joint.init jointElemPC none (by decide)
      (Or.inr (by decide))⟩

/-- C5: the type classification is decided by a case-insensitive match
against the fixed enumeration; a type string matching no enumeration value
leaves the classification at the INVALID sentinel, appends an
ATTRIBUTE_INVALID diagnostic carrying the (case-normalised) offending text,
and the load continues to the following steps (non-fatal). -/
theorem spec_joint_load_type_invalid_enumeration (s : JointState) (e : Element)
    (fg : Option FrameGraph) (ts : String) (htag : e.tag = "joint")
    (hty : e.get "type" = (ts, true))
    (hinv : Joint.jointTypeOfLower (Joint.strLower ts) = none) :
    (Joint.Load s e fg).1.type = JointType.INVALID
    ∧ Joint.invalidTypeError (Joint.strLower ts) ∈ (Joint.Load s e fg).2.2
    ∧ (Joint.Load s e none).2.2.getLast? = some Joint.graphMissingError
    ∧ (∀ t1 t2 : String, Joint.strLower t1 = Joint.strLower t2 →
        Joint.jointTypeOfLower (Joint.strLower t1)
          = Joint.jointTypeOfLower (Joint.strLower t2))
    ∧ Joint.jointTypeOfLower "ball" = some JointType.BALL
    ∧ Joint.jointTypeOfLower "continuous" = some JointType.CONTINUOUS
    ∧ Joint.jointTypeOfLower "fixed" = some JointType.FIXED
    ∧ Joint.jointTypeOfLower "gearbox" = some JointType.GEARBOX
    ∧ Joint.jointTypeOfLower "prismatic" = some JointType.PRISMATIC
    ∧ Joint.jointTypeOfLower "revolute" = some JointType.REVOLUTE
    ∧ Joint.jointTypeOfLower "revolute2" = some JointType.REVOLUTE2
    ∧ Joint.jointTypeOfLower "screw" = some JointType.SCREW
    ∧ Joint.jointTypeOfLower "universal" = some JointType.UNIVERSAL := by
  refine ⟨?_, ?_, ?_, ?_, by decide, by decide, by decide, by decide, by decide,
    by decide, by decide, by decide, by decide⟩
  · rw [Joint.load_type s e fg htag]
    simp [Joint.loadedFields, hty, hinv]
  · refine Joint.load_errors_mem s e fg _ htag ?_
    simp [Joint.loadErrors, hty, hinv, List.mem_append]
  · rw [Joint.load_none_eq s e htag]
    exact List.getLast?_concat _
  · intro t1 t2 hl
    rw [hl]

/-- C5 witness: the unmatched type string `Foo` classifies to INVALID. -/
theorem spec_joint_load_type_invalid_enumeration_witness :
    (jointElemBadType.get "type" = ("Foo", true))
    ∧ Joint.jointTypeOfLower (Joint.strLower "Foo") = none
    ∧ (Joint.Load Joint.init jointElemBadType none).1.type = JointType.INVALID :=
  ⟨by decide, by decide,
    (spec_joint_load_type_invalid_enumeration Joint.init jointElemBadType none
      "Foo" (by decide) (by decide) (by decide)).1⟩

/-- C6: for every joint-kind element, the pose-frame name after `Load` equals
the parsed pose-frame name when that is non-empty, and the child link name
after load otherwise. -/
theorem spec_joint_load_pose_frame_default (s : JointState) (e : Element)
    (fg : Option FrameGraph) (htag : e.tag = "joint") :
    (Joint.Load s e fg).1.poseFrame =
      (if (loadPose e s.pose s.poseFrame).2.1 = ""
        then (Joint.Load s e fg).1.childLinkName
        else (loadPose e s.pose s.poseFrame).2.1) := by
  rw [Joint.load_poseFrame s e fg htag, Joint.load_childLinkName s e fg htag]
  unfold Joint.loadedFields
  by_cases hf : (loadPose e s.pose s.poseFrame).2.1 = "" <;>
    simp [String.isEmpty_iff, hf]

/-- C6 witness: with no pose child the parsed frame is empty and the loaded
pose frame is the child link name. -/
theorem spec_joint_load_pose_frame_default_witness :
    (jointElemPC.tag = "joint")
    ∧ (Joint.Load Joint.init jointElemPC none).1.poseFrame =
        (if (loadPose jointElemPC Joint.init.pose Joint.init.poseFrame).2.1 = ""
          then (Joint.Load Joint.init jointElemPC none).1.childLinkName
          else (loadPose jointElemPC Joint.init.pose Joint.init.poseFrame).2.1) :=
  ⟨by decide,
    spec_joint_load_pose_frame_default Joint.init jointElemPC none (by decide)⟩

/-- C7 (amended): loading a fresh joint without a frame graph returns
normally with the MissingDependency diagnostic appended last, performs no
graph wiring (the private constructor graph and vertex id are untouched), and
every subsequent pose query whose effective target frame (the queried name,
or the stored pose frame when the query is empty) is non-empty fails
deterministically with NotFound and never crashes. -/
theorem spec_joint_load_without_graph (e : Element) (f : String)
    (htag : e.tag = "joint")
    (hf : (if f.isEmpty then (Joint.Load Joint.init e none).1.poseFrame else f)
        ≠ "") :
    (Joint.Load Joint.init e none).2.1 = none
    ∧ (Joint.Load Joint.init e none).1.frameGraph = Joint.init.frameGraph
    ∧ (Joint.Load Joint.init e none).1.frameVertexId = Joint.init.frameVertexId
    ∧ (Joint.Load Joint.init e none).2.2.getLast? = some Joint.graphMissingError
    ∧ Joint.PoseInFrame (Joint.Load Joint.init e none).1 f
        = Except.error ResolveError.NotFound := by
  rw [Joint.load_none_eq Joint.init e htag] at hf ⊢
  refine ⟨rfl, rfl, rfl, List.getLast?_concat _, ?_⟩
  have hname : Joint.Name (Joint.loadedFields Joint.init e) = "" := rfl
  unfold Joint.PoseInFrame Joint.PoseFrame
  rw [hname]
  unfold poseInFrame
  simp only at hf
  have hne : ¬ (("" : String)
      = (if f.isEmpty then (Joint.loadedFields Joint.init e).poseFrame else f)) :=
    fun hh => hf hh.symm
  rw [if_neg hne]
  have hv : ((Joint.loadedFields Joint.init e).frameGraph.Vertices
      (if f.isEmpty then (Joint.loadedFields Joint.init e).poseFrame else f))
      = [] := by
    show List.filter (fun p => decide (p.2.name =
        (if f.isEmpty then (Joint.loadedFields Joint.init e).poseFrame else f)))
      [(0, (⟨"", Matrix4d.identity⟩ : Vertex))] = []
    simp [hne]
  rw [hv]
  rfl

/-- C7 witness: after loading a joint element without a graph, querying the
pose in the frame `X` fails with NotFound. -/
theorem spec_joint_load_without_graph_witness :
    ((if ("X" : String).isEmpty
        then (Joint.Load Joint.init jointElemAB none).1.poseFrame else "X") ≠ "")
    ∧ Joint.PoseInFrame (Joint.Load Joint.init jointElemAB none).1 "X"
        = Except.error ResolveError.NotFound :=
  ⟨by decide,
    (spec_joint_load_without_graph jointElemAB "X" (by decide)
      (by decide)).2.2.2.2⟩

/-- C8: after `SetPose(p)` the local pose accessor returns `p` and the payload
of the own graph vertex of the joint is the transform of `p` (name, edges and the
remembered vertex id are untouched), keeping resolver results consistent with
the stored pose. -/
theorem spec_joint_set_pose_updates_vertex (s : JointState) (p : Pose3d)
    (v : Vertex) (h : s.frameGraph.VertexFromId s.frameVertexId = some v) :
    Joint.Pose (Joint.SetPose s p) = p
    ∧ (Joint.SetPose s p).frameGraph.VertexFromId (Joint.SetPose s p).frameVertexId
        = some ⟨v.name, Matrix4d.ofPose p⟩
    ∧ (Joint.SetPose s p).frameVertexId = s.frameVertexId
    ∧ (Joint.SetPose s p).frameGraph.edges = s.frameGraph.edges
    ∧ (Joint.SetPose s p).poseFrame = s.poseFrame :=
  ⟨rfl,
    FrameGraph.VertexFromId_SetVertexData s.frameGraph s.frameVertexId
      (Matrix4d.ofPose p) v h,
    rfl, rfl, rfl⟩

/-- C8 witness: setting a concrete pose on a fresh joint stores it and writes
the vertex payload. -/
theorem spec_joint_set_pose_updates_vertex_witness :
    (Joint.init.frameGraph.VertexFromId Joint.init.frameVertexId
      = some ⟨"", Matrix4d.identity⟩)
    ∧ Joint.Pose (Joint.SetPose Joint.init samplePose) = samplePose :=
  ⟨by decide,
    (spec_joint_set_pose_updates_vertex Joint.init samplePose
      ⟨"", Matrix4d.identity⟩ (by decide)).1⟩

end Sdf
